import Mathlib

/-!
# Verification of `src/widgets/nowplayingwidget.cpp` (Clementine)

A shallow embedding of the `NowPlayingWidget` class as an explicit state
machine.  Every slot / event handler of the widget becomes a function
`WidgetState → WidgetState` (with the external inputs of the handler —
signal arguments, dialog results, values returned by collaborator
components — passed as explicit arguments).  Side effects on collaborators
(the library backend, `QSettings`) are recorded in append-only effect logs
inside the state, and calls into the asynchronous album-cover loader are
recorded in a request log together with a fresh request id.

Conventions:
* C++ `int` members are `Int`; loader request ids (`quint64`) are `Nat`.
* `qreal` opacities are `ℚ`.  The only floating-point operation performed
  on them by the source is `qFuzzyCompare(previous_track_opacity_, 0.0)`,
  and `qFuzzyCompare(p, 0.0)` unfolds to `|p - 0| * 10^12 ≤ min |p| 0 = 0`,
  which holds exactly when `p = 0`; so it is modelled as equality with `0`.
* `QTimeLine` is modelled by its direction, a `running` flag set by
  `start()`, and its frame range.  The asynchronous completion of a
  timeline (which would clear `running`) is an external event that no
  modelled operation performs.
* The build is modelled with `HAVE_LIBLASTFM` defined (all handlers
  compiled in) and without the hypnotoad / kitten easter eggs active.
-/

/-- The widget's display mode (`NowPlayingWidget::Mode`). -/
inductive Mode where
  | SmallSongDetails
  | LargeSongDetails
deriving DecidableEq, Repr

/-- The numeric value of the mode enum, as stored into `QSettings` by
`SetMode`. -/
def Mode.toInt : Mode → Int
  | .SmallSongDetails => 0
  | .LargeSongDetails => 1

/-- The fields of `Song` read or written by this file.  `Song` itself lives
in `core/song.cpp`, outside this unit; only the accessors used here are
modelled. -/
structure Song where
  title : String
  artist : String
  album : String
  art_manual : String
  art_automatic : String
  filename : String
deriving DecidableEq, Repr

/-- Modelled from the spec: `AlbumCoverLoader::kManuallyUnsetCover`
(`core/albumcoverloader.cpp`, not under `src/`) — the sentinel path value
stored in a song's manual-art field to record that the user manually unset
the cover.  Its concrete value is irrelevant to this file: the source only
ever stores it and compares against it. -/
def kManuallyUnsetCover : String := "(unset)"

/-- Modelled from the spec: `Song::PrettyTitle` (`core/song.cpp`, not under
`src/`) — the track's display title used when building the details text. -/
def Song.PrettyTitle (s : Song) : String := s.title

/-- `NowPlayingWidget::kSettingsGroup`. -/
def kSettingsGroup : String := "NowPlayingWidget"

/-- `NowPlayingWidget::kPadding`. -/
def kPadding : Int := 2

/-- `NowPlayingWidget::kMaxCoverSize` — maximum height of the cover in
large mode. -/
def kMaxCoverSize : Int := 260

/-- `NowPlayingWidget::kBottomOffset`. -/
def kBottomOffset : Int := 0

/-- `NowPlayingWidget::kTopBorder` — border for large mode. -/
def kTopBorder : Int := 4

/-- A `QImage`: either the null image or some image payload (identified
abstractly). -/
inductive QImage where
  | null
  | img (data : Nat)
deriving DecidableEq, Repr

/-- `QImage::isNull`. -/
def QImage.isNull : QImage → Bool
  | .null => true
  | .img _ => false

/-- A `QPixmap` as used by this file: the default-constructed null pixmap,
a pixmap converted from a `QImage` (`QPixmap::fromImage`), or the snapshot
painted by `NowPlaying` into `QPixmap(size())` via `DrawContents` — the
snapshot records the widget size and every widget field `DrawContents`
reads. -/
inductive Pixmap where
  | null
  | fromImage (i : QImage)
  | snapshot (w h : Int) (mode : Mode) (smallIdealHeight : Int)
      (cover : Pixmap) (detailsHtml : String)
deriving DecidableEq, Repr

/-- `QPixmap::isNull`: the default-constructed pixmap is null, conversion
from a null image yields a null pixmap, and `QPixmap(size())` is null
exactly when the size is empty. -/
def Pixmap.isNull : Pixmap → Bool
  | .null => true
  | .fromImage i => i.isNull
  | .snapshot w h _ _ _ _ => w ≤ 0 || h ≤ 0

/-- A `QTimeLine` direction. -/
inductive TLDirection where
  | Forward
  | Backward
deriving DecidableEq, Repr

/-- The modelled state of a `QTimeLine`: its direction, whether `start()`
has been called (and the run not yet finished by the unmodelled timer), and
the frame range set by `setFrameRange`. -/
structure TimeLine where
  direction : TLDirection
  running : Bool
  frameMin : Int
  frameMax : Int
deriving DecidableEq, Repr

/-- A value written to `QSettings`. -/
inductive SettingsValue where
  | int (i : Int)
  | bool (b : Bool)
deriving DecidableEq, Repr

/-- One `QSettings::setValue` call: the group begun with `beginGroup`, the
key, and the value. -/
structure SettingsWrite where
  group : String
  key : String
  value : SettingsValue
deriving DecidableEq, Repr

/-- One `LibraryBackend::UpdateManualAlbumArtAsync(artist, album, path)`
call. -/
structure BackendCall where
  artist : String
  album : String
  path : String
deriving DecidableEq, Repr

/-- The member state of `NowPlayingWidget`, together with effect logs for
its collaborators.  `loaderRequests` records each `LoadImageAsync` call as
`(id, song)`; `loaderNextId` is the next id the loader will hand out (the
loader numbers requests with a monotone counter).  `widgetWidth` /
`widgetHeight` mirror `width()` / `height()`; `maximumHeight` mirrors
`setMaximumHeight`.  `coverFromUrlDialogCreated` mirrors whether the lazily
allocated `cover_from_url_dialog_` member is non-NULL, and
`unsetCoverEnabled` / `showCoverEnabled` mirror the enabled state of the
`unset_cover_` / `show_cover_` menu actions. -/
structure WidgetState where
  metadata_ : Song
  cover_ : Pixmap
  previous_track_ : Pixmap
  previous_track_opacity_ : ℚ
  mode_ : Mode
  visible_ : Bool
  small_ideal_height_ : Int
  cover_height_ : Int
  total_height_ : Int
  load_cover_id_ : Nat
  loaderNextId : Nat
  loaderRequests : List (Nat × Song)
  detailsHtml : String
  detailsTextWidth : Int
  detailsStyleSheet : String
  show_hide_animation_ : TimeLine
  fade_animation_ : TimeLine
  maximumHeight : Int
  widgetWidth : Int
  widgetHeight : Int
  coverFromUrlDialogCreated : Bool
  unsetCoverEnabled : Bool
  showCoverEnabled : Bool
  backendCalls : List BackendCall
  settingsWrites : List SettingsWrite
deriving DecidableEq, Repr

/-- `Qt::escape`: escapes `<`, `>`, `&` and `"` for inclusion in HTML. -/
def qtEscape (s : String) : String :=
  String.join (s.toList.map fun c =>
    if c = '<' then "&lt;"
    else if c = '>' then "&gt;"
    else if c = '&' then "&amp;"
    else if c = '"' then "&quot;"
    else String.singleton c)

/-- The default style sheet installed on the details document, by mode
(`UpdateDetailsText`, lines 237–247). -/
def detailsStyleSheetFor : Mode → String
  | .SmallSongDetails => ""
  | .LargeSongDetails => "p \x7b  font-size: small;  color: white;\x7d"

/-- The HTML built by `UpdateDetailsText` (lines 239–257) from the current
mode and song. -/
def detailsHtmlFor (mode : Mode) (m : Song) : String :=
  (match mode with
    | .SmallSongDetails => "<p>"
    | .LargeSongDetails => "<p align=center>")
  ++ "<i>" ++ qtEscape m.PrettyTitle ++ "</i><br/>"
  ++ qtEscape m.artist ++ "<br/>" ++ qtEscape m.album ++ "</p>"

/-- `NowPlayingWidget::UpdateDetailsText` (lines 232–259): sets the details
document's text width and style sheet by mode and rebuilds its HTML from
the current metadata. -/
def UpdateDetailsText (s : WidgetState) : WidgetState :=
  { s with
    detailsTextWidth :=
      match s.mode_ with
      | .SmallSongDetails => -1
      | .LargeSongDetails => s.cover_height_
    detailsStyleSheet := detailsStyleSheetFor s.mode_
    detailsHtml := detailsHtmlFor s.mode_ s.metadata_ }

/-- `NowPlayingWidget::UpdateHeight` (lines 175–202): recomputes
`cover_height_` and `total_height_` from the mode, updates the show/hide
animation's frame range, resizes the widget now if it is visible and the
animation is not running, reconfigures the loader's desired height and
default image (loader-side state, not recorded here), and issues a fresh
asynchronous load request for the current metadata, storing its id in
`load_cover_id_`. -/
def UpdateHeight (s : WidgetState) : WidgetState :=
  let ch : Int :=
    match s.mode_ with
    | .SmallSongDetails => s.small_ideal_height_
    | .LargeSongDetails => min kMaxCoverSize s.widgetWidth
  let th : Int :=
    match s.mode_ with
    | .SmallSongDetails => s.small_ideal_height_
    | .LargeSongDetails => kTopBorder + min kMaxCoverSize s.widgetWidth + kBottomOffset
  { s with
    cover_height_ := ch
    total_height_ := th
    show_hide_animation_ := { s.show_hide_animation_ with frameMin := 0, frameMax := th }
    maximumHeight :=
      if s.visible_ && !s.show_hide_animation_.running then th else s.maximumHeight
    load_cover_id_ := s.loaderNextId
    loaderNextId := s.loaderNextId + 1
    loaderRequests := s.loaderRequests ++ [(s.loaderNextId, s.metadata_)] }

/-- The pixmap painted by `NowPlaying` when caching the current rendering:
`QPixmap(size())`, filled and then drawn into by `DrawContents`, which
reads the mode, `small_ideal_height_`, the cover and the details document
(lines 207–212 and 299–348). -/
def renderSnapshot (s : WidgetState) : Pixmap :=
  .snapshot s.widgetWidth s.widgetHeight s.mode_ s.small_ideal_height_
    s.cover_ s.detailsHtml

/-- `NowPlayingWidget::SetVisible` (lines 278–285): returns immediately
when the flag already has the requested value; otherwise stores it, points
the show/hide animation in the matching direction and starts it. -/
def SetVisible (visible : Bool) (s : WidgetState) : WidgetState :=
  if visible = s.visible_ then s
  else
    { s with
      visible_ := visible
      show_hide_animation_ :=
        { s.show_hide_animation_ with
          direction := if visible then .Forward else .Backward
          running := true } }

/-- `NowPlayingWidget::NowPlaying` (lines 204–226): caches the current
rendering as the previous-track pixmap at opacity 1 if the widget is
visible, stores the new metadata, clears the cover pending the
asynchronous load, recomputes the height (issuing the load request),
rebuilds the details text, and makes the widget visible. -/
def NowPlaying (metadata : Song) (s : WidgetState) : WidgetState :=
  let s1 :=
    if s.visible_ then
      { s with previous_track_ := renderSnapshot s, previous_track_opacity_ := 1 }
    else s
  let s2 := { s1 with metadata_ := metadata, cover_ := Pixmap.null }
  SetVisible true (UpdateDetailsText (UpdateHeight s2))

/-- `NowPlayingWidget::Stopped` (lines 228–230). -/
def Stopped (s : WidgetState) : WidgetState :=
  SetVisible false s

/-- `NowPlayingWidget::SetHeight` (lines 274–276), the slot driven by the
show/hide animation's `frameChanged` signal. -/
def SetHeight (height : Int) (s : WidgetState) : WidgetState :=
  { s with maximumHeight := height }

/-- `NowPlayingWidget::AlbumArtLoaded` (lines 261–272): ignores results
whose id is not the most recently issued request id; otherwise converts the
image to the displayed cover pixmap and, if a previous-track pixmap is
cached, starts the fade animation. -/
def AlbumArtLoaded (id : Nat) (image : QImage) (s : WidgetState) : WidgetState :=
  if id ≠ s.load_cover_id_ then s
  else
    let s1 := { s with cover_ := Pixmap.fromImage image }
    if !s1.previous_track_.isNull then
      { s1 with fade_animation_ := { s1.fade_animation_ with running := true } }
    else s1

/-- `NowPlayingWidget::FadePreviousTrack` (lines 350–357): stores the
animation value as the previous-track opacity and, when it has reached 0
(`qFuzzyCompare` with `0.0`, i.e. exact equality), drops the cached
previous-track pixmap. -/
def FadePreviousTrack (value : ℚ) (s : WidgetState) : WidgetState :=
  let s1 := { s with previous_track_opacity_ := value }
  if s1.previous_track_opacity_ = 0 then { s1 with previous_track_ := Pixmap.null }
  else s1

/-- `NowPlayingWidget::SetMode` (lines 359–370): stores the mode,
recomputes the height and details text, and persists the mode under the
widget's settings group. -/
def SetMode (mode : Mode) (s : WidgetState) : WidgetState :=
  let s1 := UpdateDetailsText (UpdateHeight { s with mode_ := mode })
  { s1 with
    settingsWrites :=
      s1.settingsWrites ++ [⟨kSettingsGroup, "mode", .int mode.toInt⟩] }

/-- `NowPlayingWidget::set_ideal_height` (lines 155–160). -/
def set_ideal_height (height : Int) (s : WidgetState) : WidgetState :=
  UpdateHeight { s with small_ideal_height_ := height }

/-- `NowPlayingWidget::resizeEvent` (lines 372–379).  Qt applies the new
size to the widget before delivering the event; the handler recomputes the
layout only when the widget is visible, in large mode, and the width
changed. -/
def resizeEvent (oldWidth newWidth oldHeight newHeight : Int) (s : WidgetState) :
    WidgetState :=
  let s1 := { s with widgetWidth := newWidth, widgetHeight := newHeight }
  if s1.visible_ = true ∧ s1.mode_ = .LargeSongDetails ∧ oldWidth ≠ newWidth then
    UpdateDetailsText (UpdateHeight s1)
  else s1

/-- The guard computed by `contextMenuEvent` (lines 387–389): manual art is
set when the manual-art field is non-empty and is not the manually-unset
sentinel. -/
def artIsSet (m : Song) : Bool :=
  !m.art_manual.isEmpty && m.art_manual ≠ kManuallyUnsetCover

/-- `NowPlayingWidget::contextMenuEvent` (lines 381–395): enables or
disables the unset-cover and show-fullsize actions according to whether
manual art is set, then pops up the menu. -/
def contextMenuEvent (s : WidgetState) : WidgetState :=
  { s with
    unsetCoverEnabled := artIsSet s.metadata_
    showCoverEnabled := artIsSet s.metadata_ }

/-- `NowPlayingWidget::ShowAboveStatusBar` (lines 397–403): persists the
flag and re-emits it as a signal (the emission carries no widget state). -/
def ShowAboveStatusBar (above : Bool) (s : WidgetState) : WidgetState :=
  { s with
    settingsWrites :=
      s.settingsWrites ++ [⟨kSettingsGroup, "above_status_bar", .bool above⟩] }

/-- `NowPlayingWidget::SetAlbumArt` (lines 508–512): stores the path in the
metadata's manual-art field, asks the backend to persist it, and re-runs
`NowPlaying` with the updated metadata. -/
def SetAlbumArt (path : String) (s : WidgetState) : WidgetState :=
  let md := { s.metadata_ with art_manual := path }
  let s1 :=
    { s with
      metadata_ := md
      backendCalls := s.backendCalls ++ [⟨md.artist, md.album, path⟩] }
  NowPlaying md s1

/-- `NowPlayingWidget::UnsetCover` (lines 491–493). -/
def UnsetCover (s : WidgetState) : WidgetState :=
  SetAlbumArt kManuallyUnsetCover s

/-- `NowPlayingWidget::ZoomCover` (lines 495–506): opens a dialog showing
the full-size cover; it writes no member of the widget. -/
def ZoomCover (s : WidgetState) : WidgetState :=
  s

/-- `NowPlayingWidget::LoadCoverFromFile` (lines 434–459).  `chosenCover`
is the file name returned by the file dialog (`none` for a null
`QString`), and `loadImage` is `QImage`'s file constructor.  The initial
directory passed to the dialog is computed from the metadata but touches
no state. -/
def LoadCoverFromFile (chosenCover : Option String) (loadImage : String → QImage)
    (s : WidgetState) : WidgetState :=
  match chosenCover with
  | none => s
  | some cover =>
    if (loadImage cover).isNull then s
    else SetAlbumArt cover s

/-- `NowPlayingWidget::LoadCoverFromURL` (lines 461–472).  The cover-from-
URL dialog is allocated on first use; `execImage` is the image returned by
`CoverFromURLDialog::Exec`, and `savedPath` is the path returned by
`AlbumCoverManager::SaveCoverInCache(artist, album, image)` (a collaborator
outside this unit). -/
def LoadCoverFromURL (execImage : QImage) (savedPath : String)
    (s : WidgetState) : WidgetState :=
  let s1 := { s with coverFromUrlDialogCreated := true }
  if execImage.isNull then s1
  else SetAlbumArt savedPath s1

/-- `NowPlayingWidget::SearchCover` (lines 474–489).  `execImage` is the
image returned by `AlbumCoverSearcher::Exec` for the artist/album query,
and `savedPath` the path returned by `SaveCoverInCache`. -/
def SearchCover (execImage : QImage) (savedPath : String)
    (s : WidgetState) : WidgetState :=
  if execImage.isNull then s
  else SetAlbumArt savedPath s

/-- A slot a menu action is connected to. -/
inductive Slot where
  | setMode (m : Mode)
  | loadCoverFromFile
  | loadCoverFromURL
  | searchCover
  | unsetCover
  | zoomCover
  | showAboveStatusBar
deriving DecidableEq, Repr

/-- One entry of the widget's context menu. -/
inductive MenuEntry where
  | action (text : String) (slot : Slot)
  | separator
deriving DecidableEq, Repr

/-- The context menu built by the constructor (lines 94–121): the two
checkable mode actions, a separator, the five cover-management actions,
another separator, and the checkable show-above-status-bar action. -/
def menuEntries : List MenuEntry :=
  [ .action "Small album cover" (.setMode .SmallSongDetails),
    .action "Large album cover" (.setMode .LargeSongDetails),
    .separator,
    .action "Load cover from disk..." .loadCoverFromFile,
    .action "Load cover from URL..." .loadCoverFromURL,
    .action "Search for album covers..." .searchCover,
    .action "Unset cover" .unsetCover,
    .action "Show fullsize..." .zoomCover,
    .separator,
    .action "Show above status bar" .showAboveStatusBar ]

/-- Whether a slot is one of the five cover-management slots. -/
def Slot.isCoverManagement : Slot → Bool
  | .loadCoverFromFile => true
  | .loadCoverFromURL => true
  | .searchCover => true
  | .unsetCover => true
  | .zoomCover => true
  | _ => false

/-- The cover-management actions of a menu, in menu order. -/
def coverManagementActions (entries : List MenuEntry) : List (String × Slot) :=
  entries.filterMap fun e =>
    match e with
    | .action t sl => if sl.isCoverManagement then some (t, sl) else none
    | .separator => none

/-- A concrete widget state mirroring the constructor's member initializers
(with default settings, so small mode), used as a base point for concrete
evaluations.  `total_height_` has no initializer in the source and is taken
as 0 here. -/
def initState : WidgetState where
  metadata_ :=
    { title := "", artist := "", album := "", art_manual := "",
      art_automatic := "", filename := "" }
  cover_ := .null
  previous_track_ := .null
  previous_track_opacity_ := 0
  mode_ := .SmallSongDetails
  visible_ := false
  small_ideal_height_ := 0
  cover_height_ := 0
  total_height_ := 0
  load_cover_id_ := 0
  loaderNextId := 1
  loaderRequests := []
  detailsHtml := ""
  detailsTextWidth := 0
  detailsStyleSheet := ""
  show_hide_animation_ := { direction := .Forward, running := false, frameMin := 0, frameMax := 0 }
  fade_animation_ := { direction := .Backward, running := false, frameMin := 0, frameMax := 0 }
  maximumHeight := 0
  widgetWidth := 0
  widgetHeight := 0
  coverFromUrlDialogCreated := false
  unsetCoverEnabled := false
  showCoverEnabled := false
  backendCalls := []
  settingsWrites := []

/-- A concrete visible state: the widget after becoming visible at some
size, with a pending load request id 3. -/
def visState : WidgetState :=
  { initState with
    visible_ := true
    widgetWidth := 300
    widgetHeight := 264
    load_cover_id_ := 3
    loaderNextId := 4
    previous_track_ := .null }

/-- A sample song with every field populated. -/
def songA : Song where
  title := "Title A"
  artist := "Artist A"
  album := "Album A"
  art_manual := "/covers/a.jpg"
  art_automatic := ""
  filename := "/music/a.mp3"

/-! ## Basic projection lemmas -/

theorem SetVisible_visible (v : Bool) (s : WidgetState) :
    (SetVisible v s).visible_ = v := by
  unfold SetVisible
  split
  next h => exact h.symm
  next => rfl

theorem SetVisible_settingsWrites (v : Bool) (s : WidgetState) :
    (SetVisible v s).settingsWrites = s.settingsWrites := by
  unfold SetVisible
  split <;> rfl

theorem SetVisible_backendCalls (v : Bool) (s : WidgetState) :
    (SetVisible v s).backendCalls = s.backendCalls := by
  unfold SetVisible
  split <;> rfl

theorem SetVisible_metadata (v : Bool) (s : WidgetState) :
    (SetVisible v s).metadata_ = s.metadata_ := by
  unfold SetVisible
  split <;> rfl

theorem SetVisible_cover (v : Bool) (s : WidgetState) :
    (SetVisible v s).cover_ = s.cover_ := by
  unfold SetVisible
  split <;> rfl

theorem SetVisible_previousTrack (v : Bool) (s : WidgetState) :
    (SetVisible v s).previous_track_ = s.previous_track_ := by
  unfold SetVisible
  split <;> rfl

theorem SetVisible_previousTrackOpacity (v : Bool) (s : WidgetState) :
    (SetVisible v s).previous_track_opacity_ = s.previous_track_opacity_ := by
  unfold SetVisible
  split <;> rfl

theorem SetVisible_mode (v : Bool) (s : WidgetState) :
    (SetVisible v s).mode_ = s.mode_ := by
  unfold SetVisible
  split <;> rfl

theorem SetVisible_coverHeight (v : Bool) (s : WidgetState) :
    (SetVisible v s).cover_height_ = s.cover_height_ := by
  unfold SetVisible
  split <;> rfl

theorem SetVisible_totalHeight (v : Bool) (s : WidgetState) :
    (SetVisible v s).total_height_ = s.total_height_ := by
  unfold SetVisible
  split <;> rfl

theorem SetVisible_loadCoverId (v : Bool) (s : WidgetState) :
    (SetVisible v s).load_cover_id_ = s.load_cover_id_ := by
  unfold SetVisible
  split <;> rfl

theorem SetVisible_loaderRequests (v : Bool) (s : WidgetState) :
    (SetVisible v s).loaderRequests = s.loaderRequests := by
  unfold SetVisible
  split <;> rfl

theorem SetVisible_detailsHtml (v : Bool) (s : WidgetState) :
    (SetVisible v s).detailsHtml = s.detailsHtml := by
  unfold SetVisible
  split <;> rfl

theorem SetVisible_fadeAnimation (v : Bool) (s : WidgetState) :
    (SetVisible v s).fade_animation_ = s.fade_animation_ := by
  unfold SetVisible
  split <;> rfl

theorem SetVisible_widgetWidth (v : Bool) (s : WidgetState) :
    (SetVisible v s).widgetWidth = s.widgetWidth := by
  unfold SetVisible
  split <;> rfl

theorem SetVisible_frameMin (v : Bool) (s : WidgetState) :
    (SetVisible v s).show_hide_animation_.frameMin = s.show_hide_animation_.frameMin := by
  unfold SetVisible
  split <;> rfl

theorem SetVisible_frameMax (v : Bool) (s : WidgetState) :
    (SetVisible v s).show_hide_animation_.frameMax = s.show_hide_animation_.frameMax := by
  unfold SetVisible
  split <;> rfl

theorem UpdateHeight_mode (s : WidgetState) : (UpdateHeight s).mode_ = s.mode_ := rfl

theorem UpdateHeight_visible (s : WidgetState) :
    (UpdateHeight s).visible_ = s.visible_ := rfl

theorem UpdateHeight_metadata (s : WidgetState) :
    (UpdateHeight s).metadata_ = s.metadata_ := rfl

theorem UpdateHeight_cover (s : WidgetState) : (UpdateHeight s).cover_ = s.cover_ := rfl

theorem UpdateHeight_previousTrack (s : WidgetState) :
    (UpdateHeight s).previous_track_ = s.previous_track_ := rfl

theorem UpdateHeight_previousTrackOpacity (s : WidgetState) :
    (UpdateHeight s).previous_track_opacity_ = s.previous_track_opacity_ := rfl

theorem UpdateHeight_loadCoverId (s : WidgetState) :
    (UpdateHeight s).load_cover_id_ = s.loaderNextId := rfl

theorem UpdateHeight_loaderRequests (s : WidgetState) :
    (UpdateHeight s).loaderRequests = s.loaderRequests ++ [(s.loaderNextId, s.metadata_)] := rfl

theorem UpdateHeight_settingsWrites (s : WidgetState) :
    (UpdateHeight s).settingsWrites = s.settingsWrites := rfl

theorem UpdateHeight_backendCalls (s : WidgetState) :
    (UpdateHeight s).backendCalls = s.backendCalls := rfl

theorem UpdateHeight_fadeAnimation (s : WidgetState) :
    (UpdateHeight s).fade_animation_ = s.fade_animation_ := rfl

theorem UpdateHeight_widgetWidth (s : WidgetState) :
    (UpdateHeight s).widgetWidth = s.widgetWidth := rfl

theorem UpdateHeight_frameMax (s : WidgetState) :
    (UpdateHeight s).show_hide_animation_.frameMax = (UpdateHeight s).total_height_ := rfl

theorem UpdateHeight_frameMin (s : WidgetState) :
    (UpdateHeight s).show_hide_animation_.frameMin = 0 := rfl

theorem UpdateHeight_coverHeight_large (s : WidgetState)
    (h : s.mode_ = .LargeSongDetails) :
    (UpdateHeight s).cover_height_ = min kMaxCoverSize s.widgetWidth := by
  unfold UpdateHeight
  rw [h]

theorem UpdateHeight_totalHeight_large (s : WidgetState)
    (h : s.mode_ = .LargeSongDetails) :
    (UpdateHeight s).total_height_ =
      kTopBorder + min kMaxCoverSize s.widgetWidth + kBottomOffset := by
  unfold UpdateHeight
  rw [h]

theorem UpdateDetailsText_eq (s : WidgetState) :
    UpdateDetailsText s =
      { s with
        detailsTextWidth :=
          match s.mode_ with
          | .SmallSongDetails => -1
          | .LargeSongDetails => s.cover_height_
        detailsStyleSheet := detailsStyleSheetFor s.mode_
        detailsHtml := detailsHtmlFor s.mode_ s.metadata_ } := rfl

theorem UpdateDetailsText_detailsHtml (s : WidgetState) :
    (UpdateDetailsText s).detailsHtml = detailsHtmlFor s.mode_ s.metadata_ := rfl

theorem UpdateDetailsText_mode (s : WidgetState) :
    (UpdateDetailsText s).mode_ = s.mode_ := rfl

theorem UpdateDetailsText_visible (s : WidgetState) :
    (UpdateDetailsText s).visible_ = s.visible_ := rfl

theorem UpdateDetailsText_metadata (s : WidgetState) :
    (UpdateDetailsText s).metadata_ = s.metadata_ := rfl

theorem UpdateDetailsText_cover (s : WidgetState) :
    (UpdateDetailsText s).cover_ = s.cover_ := rfl

theorem UpdateDetailsText_previousTrack (s : WidgetState) :
    (UpdateDetailsText s).previous_track_ = s.previous_track_ := rfl

theorem UpdateDetailsText_previousTrackOpacity (s : WidgetState) :
    (UpdateDetailsText s).previous_track_opacity_ = s.previous_track_opacity_ := rfl

theorem UpdateDetailsText_coverHeight (s : WidgetState) :
    (UpdateDetailsText s).cover_height_ = s.cover_height_ := rfl

theorem UpdateDetailsText_totalHeight (s : WidgetState) :
    (UpdateDetailsText s).total_height_ = s.total_height_ := rfl

theorem UpdateDetailsText_loadCoverId (s : WidgetState) :
    (UpdateDetailsText s).load_cover_id_ = s.load_cover_id_ := rfl

theorem UpdateDetailsText_loaderRequests (s : WidgetState) :
    (UpdateDetailsText s).loaderRequests = s.loaderRequests := rfl

theorem UpdateDetailsText_settingsWrites (s : WidgetState) :
    (UpdateDetailsText s).settingsWrites = s.settingsWrites := rfl

theorem UpdateDetailsText_backendCalls (s : WidgetState) :
    (UpdateDetailsText s).backendCalls = s.backendCalls := rfl

theorem UpdateDetailsText_fadeAnimation (s : WidgetState) :
    (UpdateDetailsText s).fade_animation_ = s.fade_animation_ := rfl

theorem UpdateDetailsText_showHide (s : WidgetState) :
    (UpdateDetailsText s).show_hide_animation_ = s.show_hide_animation_ := rfl

theorem UpdateDetailsText_widgetWidth (s : WidgetState) :
    (UpdateDetailsText s).widgetWidth = s.widgetWidth := rfl

/-! ## Claims -/

/-- Claim C3: for every id and image, if `AlbumArtLoaded(id, image)` is
invoked with an id different from the most recently issued cover-load
request id (`load_cover_id_`), the call returns immediately and leaves all
widget state unchanged — the displayed cover, the previous-track pixmap,
the opacity, and the fade animation are untouched. -/
theorem claim_C3_stale_cover_ignored (id : Nat) (image : QImage) (s : WidgetState)
    (h : id ≠ s.load_cover_id_) : AlbumArtLoaded id image s = s := by
  unfold AlbumArtLoaded
  simp [h]

theorem claim_C3_stale_cover_ignored_witness :
    (5 : Nat) ≠ visState.load_cover_id_ ∧
      AlbumArtLoaded 5 (QImage.img 1) visState = visState :=
  ⟨by decide, claim_C3_stale_cover_ignored 5 (QImage.img 1) visState (by decide)⟩

/-- Claim C7: the context menu contains exactly the five cover-management
actions in this order — load cover from disk, load cover from URL, search
for album covers, unset cover, and show fullsize (zoom) — each wired to
the corresponding slot. -/
theorem claim_C7_context_menu_actions :
    coverManagementActions menuEntries =
      [("Load cover from disk...", Slot.loadCoverFromFile),
       ("Load cover from URL...", Slot.loadCoverFromURL),
       ("Search for album covers...", Slot.searchCover),
       ("Unset cover", Slot.unsetCover),
       ("Show fullsize...", Slot.zoomCover)] := rfl

/-- Claim C10: on every context-menu event, the unset-cover and
show-fullsize actions are enabled if and only if the current track's
manual-art field is non-empty and different from the manually-unset
sentinel; otherwise both are disabled. -/
theorem claim_C10_unset_show_enabled (s : WidgetState) :
    ((contextMenuEvent s).unsetCoverEnabled = true ↔
      s.metadata_.art_manual ≠ "" ∧ s.metadata_.art_manual ≠ kManuallyUnsetCover)
    ∧ ((contextMenuEvent s).showCoverEnabled = true ↔
      s.metadata_.art_manual ≠ "" ∧ s.metadata_.art_manual ≠ kManuallyUnsetCover) := by
  have h : s.metadata_.art_manual.isEmpty = false ↔ s.metadata_.art_manual ≠ "" := by
    rw [Bool.eq_false_iff]
    exact not_congr (String.isEmpty_iff _)
  constructor <;> simp [contextMenuEvent, artIsSet, Bool.not_eq_true', h, and_comm]

theorem claim_C10_unset_show_enabled_witness :
    (contextMenuEvent { initState with metadata_ := songA }).unsetCoverEnabled = true :=
  (claim_C10_unset_show_enabled { initState with metadata_ := songA }).1.mpr
    ⟨by decide, by decide⟩

/-- Claim C4: after `NowPlaying(m)` the stored metadata equals `m`, the
displayed cover pixmap is reset to a null pixmap pending the asynchronous
load, the details text is rebuilt from `m`'s title, artist and album, a
new cover-load request for `m` is issued (updating `load_cover_id_` to its
id), and the widget is made visible. -/
theorem claim_C4_now_playing_updates (m : Song) (s : WidgetState) :
    (NowPlaying m s).metadata_ = m ∧
    (NowPlaying m s).cover_ = Pixmap.null ∧
    (NowPlaying m s).detailsHtml = detailsHtmlFor s.mode_ m ∧
    (NowPlaying m s).load_cover_id_ = s.loaderNextId ∧
    (NowPlaying m s).loaderRequests = s.loaderRequests ++ [(s.loaderNextId, m)] ∧
    (NowPlaying m s).visible_ = true := by
  unfold NowPlaying
  cases hv : s.visible_ <;>
    simp [hv, SetVisible_metadata, SetVisible_cover, SetVisible_detailsHtml,
      SetVisible_loadCoverId, SetVisible_loaderRequests, SetVisible_visible,
      UpdateDetailsText_metadata, UpdateDetailsText_cover, UpdateDetailsText_detailsHtml,
      UpdateDetailsText_loadCoverId, UpdateDetailsText_loaderRequests,
      UpdateHeight_metadata, UpdateHeight_cover, UpdateHeight_loadCoverId,
      UpdateHeight_loaderRequests, UpdateHeight_mode]

/-- Claim C5: `NowPlaying` sets the visible flag and starts the show/hide
animation forward over the range 0 to `total_height_`; `Stopped` clears
the flag and starts it backward; and `SetVisible(v)` is a no-op whenever
`v` equals the current visible flag.  (The first two parts start the
animation exactly when the flag actually changes, per the third part.) -/
theorem claim_C5_show_hide_animation :
    (∀ m s, s.visible_ = false →
      (NowPlaying m s).visible_ = true ∧
      (NowPlaying m s).show_hide_animation_.direction = TLDirection.Forward ∧
      (NowPlaying m s).show_hide_animation_.running = true ∧
      (NowPlaying m s).show_hide_animation_.frameMin = 0 ∧
      (NowPlaying m s).show_hide_animation_.frameMax = (NowPlaying m s).total_height_)
    ∧ (∀ s, s.visible_ = true →
      (Stopped s).visible_ = false ∧
      (Stopped s).show_hide_animation_.direction = TLDirection.Backward ∧
      (Stopped s).show_hide_animation_.running = true)
    ∧ (∀ v s, v = s.visible_ → SetVisible v s = s) := by
  refine ⟨?_, ?_, ?_⟩
  · intro m s hv
    unfold NowPlaying SetVisible
    simp [hv, UpdateDetailsText_visible, UpdateHeight_visible,
      UpdateDetailsText_showHide, UpdateHeight_frameMin, UpdateHeight_frameMax,
      UpdateDetailsText_totalHeight]
  · intro s hv
    unfold Stopped SetVisible
    simp [hv]
  · intro v s h
    unfold SetVisible
    rw [if_pos h]

theorem claim_C5_show_hide_animation_witness :
    (NowPlaying songA initState).show_hide_animation_.direction = TLDirection.Forward ∧
    (Stopped visState).show_hide_animation_.direction = TLDirection.Backward ∧
    SetVisible false initState = initState :=
  ⟨(claim_C5_show_hide_animation.1 songA initState rfl).2.1,
   (claim_C5_show_hide_animation.2.1 visState rfl).2.1,
   claim_C5_show_hide_animation.2.2 false initState rfl⟩

/-- Claim C1: when `NowPlaying` runs while the widget is visible, the
current rendering is cached as the previous-track pixmap with
`previous_track_opacity_` set to 1; the fade animation's running flag is
newly set only by `AlbumArtLoaded` delivering the current request's cover
while a previous-track pixmap is cached (`NowPlaying` itself leaves the
fade animation alone); and `FadePreviousTrack` stores the opacity and
clears the cached previous-track pixmap to null exactly when the opacity
reaches 0. -/
theorem claim_C1_artwork_fade :
    (∀ m s, s.visible_ = true →
      (NowPlaying m s).previous_track_ = renderSnapshot s ∧
      (NowPlaying m s).previous_track_opacity_ = 1)
    ∧ (∀ id image s,
        (AlbumArtLoaded id image s).fade_animation_.running =
          (s.fade_animation_.running ||
            (decide (id = s.load_cover_id_) && !s.previous_track_.isNull)))
    ∧ (∀ m s, (NowPlaying m s).fade_animation_ = s.fade_animation_)
    ∧ (∀ v s, (FadePreviousTrack v s).previous_track_opacity_ = v ∧
        (v = 0 → (FadePreviousTrack v s).previous_track_ = Pixmap.null) ∧
        (v ≠ 0 → (FadePreviousTrack v s).previous_track_ = s.previous_track_)) := by
  refine ⟨?_, ?_, ?_, ?_⟩
  · intro m s hv
    unfold NowPlaying
    simp [hv, SetVisible_previousTrack, SetVisible_previousTrackOpacity,
      UpdateDetailsText_previousTrack, UpdateDetailsText_previousTrackOpacity,
      UpdateHeight_previousTrack, UpdateHeight_previousTrackOpacity]
  · intro id image s
    by_cases hid : id = s.load_cover_id_ <;>
      cases hnull : s.previous_track_.isNull <;>
        simp [AlbumArtLoaded, hid, hnull]
  · intro m s
    unfold NowPlaying
    cases hv : s.visible_ <;>
      simp [hv, SetVisible_fadeAnimation, UpdateDetailsText_fadeAnimation,
        UpdateHeight_fadeAnimation]
  · intro v s
    refine ⟨?_, ?_, ?_⟩ <;> by_cases hz : v = 0 <;> simp [FadePreviousTrack, hz]

theorem claim_C1_artwork_fade_witness :
    (NowPlaying songA visState).previous_track_ = renderSnapshot visState ∧
    (NowPlaying songA visState).previous_track_opacity_ = 1 ∧
    (FadePreviousTrack 0 visState).previous_track_ = Pixmap.null :=
  ⟨(claim_C1_artwork_fade.1 songA visState rfl).1,
   (claim_C1_artwork_fade.1 songA visState rfl).2,
   (claim_C1_artwork_fade.2.2.2 0 visState).2.1 rfl⟩

/-! ## More helper lemmas -/

theorem NowPlaying_mode (m : Song) (s : WidgetState) :
    (NowPlaying m s).mode_ = s.mode_ := by
  unfold NowPlaying
  cases hv : s.visible_ <;>
    simp [hv, SetVisible_mode, UpdateDetailsText_mode, UpdateHeight_mode]

theorem NowPlaying_metadata (m : Song) (s : WidgetState) :
    (NowPlaying m s).metadata_ = m := by
  unfold NowPlaying
  cases hv : s.visible_ <;>
    simp [hv, SetVisible_metadata, UpdateDetailsText_metadata, UpdateHeight_metadata]

theorem NowPlaying_settingsWrites (m : Song) (s : WidgetState) :
    (NowPlaying m s).settingsWrites = s.settingsWrites := by
  unfold NowPlaying
  cases hv : s.visible_ <;>
    simp [hv, SetVisible_settingsWrites, UpdateDetailsText_settingsWrites,
      UpdateHeight_settingsWrites]

theorem NowPlaying_backendCalls (m : Song) (s : WidgetState) :
    (NowPlaying m s).backendCalls = s.backendCalls := by
  unfold NowPlaying
  cases hv : s.visible_ <;>
    simp [hv, SetVisible_backendCalls, UpdateDetailsText_backendCalls,
      UpdateHeight_backendCalls]

theorem NowPlaying_widgetWidth (m : Song) (s : WidgetState) :
    (NowPlaying m s).widgetWidth = s.widgetWidth := by
  unfold NowPlaying
  cases hv : s.visible_ <;>
    simp [hv, SetVisible_widgetWidth, UpdateDetailsText_widgetWidth,
      UpdateHeight_widgetWidth]

theorem NowPlaying_coverHeight (m : Song) (s : WidgetState) :
    (NowPlaying m s).cover_height_ =
      match s.mode_ with
      | Mode.SmallSongDetails => s.small_ideal_height_
      | Mode.LargeSongDetails => min kMaxCoverSize s.widgetWidth := by
  unfold NowPlaying
  cases hv : s.visible_ <;>
    simp [hv, SetVisible_coverHeight, UpdateDetailsText_coverHeight, UpdateHeight]

theorem NowPlaying_totalHeight (m : Song) (s : WidgetState) :
    (NowPlaying m s).total_height_ =
      match s.mode_ with
      | Mode.SmallSongDetails => s.small_ideal_height_
      | Mode.LargeSongDetails => kTopBorder + min kMaxCoverSize s.widgetWidth + kBottomOffset := by
  unfold NowPlaying
  cases hv : s.visible_ <;>
    simp [hv, SetVisible_totalHeight, UpdateDetailsText_totalHeight, UpdateHeight]

theorem SetMode_mode (mode : Mode) (s : WidgetState) :
    (SetMode mode s).mode_ = mode := by
  simp [SetMode, UpdateDetailsText_mode, UpdateHeight_mode]

theorem SetMode_widgetWidth (mode : Mode) (s : WidgetState) :
    (SetMode mode s).widgetWidth = s.widgetWidth := by
  simp [SetMode, UpdateDetailsText_widgetWidth, UpdateHeight_widgetWidth]

theorem SetMode_coverHeight (mode : Mode) (s : WidgetState) :
    (SetMode mode s).cover_height_ =
      match mode with
      | Mode.SmallSongDetails => s.small_ideal_height_
      | Mode.LargeSongDetails => min kMaxCoverSize s.widgetWidth := by
  simp [SetMode, UpdateDetailsText_coverHeight, UpdateHeight]

theorem SetMode_totalHeight (mode : Mode) (s : WidgetState) :
    (SetMode mode s).total_height_ =
      match mode with
      | Mode.SmallSongDetails => s.small_ideal_height_
      | Mode.LargeSongDetails => kTopBorder + min kMaxCoverSize s.widgetWidth + kBottomOffset := by
  simp [SetMode, UpdateDetailsText_totalHeight, UpdateHeight]

theorem SetAlbumArt_settingsWrites (path : String) (s : WidgetState) :
    (SetAlbumArt path s).settingsWrites = s.settingsWrites := by
  simp [SetAlbumArt, NowPlaying_settingsWrites]

theorem AlbumArtLoaded_settingsWrites (id : Nat) (image : QImage) (s : WidgetState) :
    (AlbumArtLoaded id image s).settingsWrites = s.settingsWrites := by
  unfold AlbumArtLoaded
  split
  · rfl
  · dsimp only
    split <;> rfl

theorem FadePreviousTrack_settingsWrites (v : ℚ) (s : WidgetState) :
    (FadePreviousTrack v s).settingsWrites = s.settingsWrites := by
  unfold FadePreviousTrack
  dsimp only
  split <;> rfl

theorem resizeEvent_settingsWrites (ow nw oh nh : Int) (s : WidgetState) :
    (resizeEvent ow nw oh nh s).settingsWrites = s.settingsWrites := by
  unfold resizeEvent
  dsimp only
  split
  · simp [UpdateDetailsText_settingsWrites, UpdateHeight_settingsWrites]
  · rfl

theorem LoadCoverFromFile_settingsWrites (c : Option String) (li : String → QImage)
    (s : WidgetState) :
    (LoadCoverFromFile c li s).settingsWrites = s.settingsWrites := by
  cases c with
  | none => rfl
  | some cover =>
    simp only [LoadCoverFromFile]
    split
    · rfl
    · rw [SetAlbumArt_settingsWrites]

theorem LoadCoverFromURL_settingsWrites (image : QImage) (path : String)
    (s : WidgetState) :
    (LoadCoverFromURL image path s).settingsWrites = s.settingsWrites := by
  simp only [LoadCoverFromURL]
  split
  · rfl
  · rw [SetAlbumArt_settingsWrites]

theorem SearchCover_settingsWrites (image : QImage) (path : String) (s : WidgetState) :
    (SearchCover image path s).settingsWrites = s.settingsWrites := by
  unfold SearchCover
  split
  · rfl
  · rw [SetAlbumArt_settingsWrites]

/-- Claim C2 counterexample: `SetMode` writes the chosen mode into
persistent settings storage, so it is not true that every operation of the
widget leaves persistent settings storage unmodified. -/
theorem claim_C2_counterexample :
    (SetMode Mode.LargeSongDetails initState).settingsWrites ≠ initState.settingsWrites := by
  simp [SetMode, UpdateDetailsText_settingsWrites, UpdateHeight_settingsWrites]

/-- Claim C2, amended: the widget's state is transient UI state, and no
operation modifies persistent settings storage except `SetMode` (which
persists the chosen mode under the widget's settings group) and
`ShowAboveStatusBar` (which persists the above-status-bar flag there). -/
theorem claim_C2_amended_settings_effects :
    (∀ m s, (NowPlaying m s).settingsWrites = s.settingsWrites)
    ∧ (∀ s, (Stopped s).settingsWrites = s.settingsWrites)
    ∧ (∀ id image s, (AlbumArtLoaded id image s).settingsWrites = s.settingsWrites)
    ∧ (∀ v s, (SetVisible v s).settingsWrites = s.settingsWrites)
    ∧ (∀ h s, (SetHeight h s).settingsWrites = s.settingsWrites)
    ∧ (∀ v s, (FadePreviousTrack v s).settingsWrites = s.settingsWrites)
    ∧ (∀ h s, (set_ideal_height h s).settingsWrites = s.settingsWrites)
    ∧ (∀ s, (UpdateHeight s).settingsWrites = s.settingsWrites)
    ∧ (∀ s, (UpdateDetailsText s).settingsWrites = s.settingsWrites)
    ∧ (∀ ow nw oh nh s, (resizeEvent ow nw oh nh s).settingsWrites = s.settingsWrites)
    ∧ (∀ s, (contextMenuEvent s).settingsWrites = s.settingsWrites)
    ∧ (∀ s, (ZoomCover s).settingsWrites = s.settingsWrites)
    ∧ (∀ path s, (SetAlbumArt path s).settingsWrites = s.settingsWrites)
    ∧ (∀ s, (UnsetCover s).settingsWrites = s.settingsWrites)
    ∧ (∀ c li s, (LoadCoverFromFile c li s).settingsWrites = s.settingsWrites)
    ∧ (∀ image p s, (LoadCoverFromURL image p s).settingsWrites = s.settingsWrites)
    ∧ (∀ image p s, (SearchCover image p s).settingsWrites = s.settingsWrites)
    ∧ (∀ mode s, (SetMode mode s).settingsWrites =
        s.settingsWrites ++ [⟨kSettingsGroup, "mode", SettingsValue.int mode.toInt⟩])
    ∧ (∀ b s, (ShowAboveStatusBar b s).settingsWrites =
        s.settingsWrites ++ [⟨kSettingsGroup, "above_status_bar", SettingsValue.bool b⟩]) :=
  ⟨NowPlaying_settingsWrites,
   fun s => SetVisible_settingsWrites false s,
   AlbumArtLoaded_settingsWrites,
   SetVisible_settingsWrites,
   fun _ _ => rfl,
   FadePreviousTrack_settingsWrites,
   fun _ _ => rfl,
   UpdateHeight_settingsWrites,
   UpdateDetailsText_settingsWrites,
   resizeEvent_settingsWrites,
   fun _ => rfl,
   fun _ => rfl,
   SetAlbumArt_settingsWrites,
   fun s => SetAlbumArt_settingsWrites kManuallyUnsetCover s,
   LoadCoverFromFile_settingsWrites,
   LoadCoverFromURL_settingsWrites,
   SearchCover_settingsWrites,
   fun mode s => by
     simp [SetMode, UpdateDetailsText_settingsWrites, UpdateHeight_settingsWrites],
   fun b s => rfl⟩

/-- Claim C6 counterexample: when `LoadCoverFromURL` obtains a null image
on its first invocation it does return early without setting album art,
but it is not true that all widget state is left unchanged — the lazily
allocated cover-from-URL dialog member changes from NULL to non-NULL. -/
theorem claim_C6_counterexample :
    LoadCoverFromURL QImage.null "/covers/x.jpg" initState ≠ initState := by
  intro h
  have hc := congrArg WidgetState.coverFromUrlDialogCreated h
  simp [LoadCoverFromURL, QImage.isNull, initState] at hc

/-- Claim C6, amended: for every invocation of `LoadCoverFromFile`,
`LoadCoverFromURL`, or `SearchCover` in which the chosen file name or
obtained image is null, the operation returns early and no album art is
set — metadata, the backend, and all widget state are left unchanged,
except that `LoadCoverFromURL` allocates its cover-from-URL dialog if it
did not exist yet. -/
theorem claim_C6_amended_null_guards :
    (∀ li s, LoadCoverFromFile none li s = s)
    ∧ (∀ cover li s, (li cover).isNull = true → LoadCoverFromFile (some cover) li s = s)
    ∧ (∀ image path s, image.isNull = true →
        LoadCoverFromURL image path s = { s with coverFromUrlDialogCreated := true })
    ∧ (∀ image path s, image.isNull = true → SearchCover image path s = s) := by
  refine ⟨fun li s => rfl, ?_, ?_, ?_⟩
  · intro cover li s h
    simp only [LoadCoverFromFile]
    rw [if_pos h]
  · intro image path s h
    simp only [LoadCoverFromURL]
    rw [if_pos h]
  · intro image path s h
    simp only [SearchCover]
    rw [if_pos h]

theorem claim_C6_amended_null_guards_witness :
    QImage.null.isNull = true ∧
      SearchCover QImage.null "/covers/x.jpg" initState = initState :=
  ⟨rfl, claim_C6_amended_null_guards.2.2.2 QImage.null "/covers/x.jpg" initState rfl⟩

/-- Claim C8: `UnsetCover` sets the track's manual-art field to the
manually-unset sentinel value via `SetAlbumArt`, and every
`SetAlbumArt(path)` call stores the path in the metadata's manual-art
field, delegates persistence to the library backend via
`UpdateManualAlbumArtAsync(artist, album, path)`, and re-runs `NowPlaying`
with the updated metadata. -/
theorem claim_C8_set_album_art_delegation :
    (∀ s, UnsetCover s = SetAlbumArt kManuallyUnsetCover s)
    ∧ (∀ path s,
        (SetAlbumArt path s).metadata_.art_manual = path ∧
        (SetAlbumArt path s).backendCalls =
          s.backendCalls ++ [⟨s.metadata_.artist, s.metadata_.album, path⟩] ∧
        SetAlbumArt path s =
          NowPlaying { s.metadata_ with art_manual := path }
            { s with
              metadata_ := { s.metadata_ with art_manual := path }
              backendCalls := s.backendCalls ++
                [⟨s.metadata_.artist, s.metadata_.album, path⟩] }) := by
  refine ⟨fun s => rfl, fun path s => ⟨?_, ?_, rfl⟩⟩
  · simp [SetAlbumArt, NowPlaying_metadata]
  · simp [SetAlbumArt, NowPlaying_backendCalls]

/-- Claim C9: after every operation that recomputes the layout
(`UpdateHeight` itself, and `NowPlaying`, `SetMode`, `set_ideal_height`,
and a width-changing resize while visible, which call it), if the mode is
`LargeSongDetails` then `cover_height_` equals `min 260 width` — so the
cover height never exceeds 260 — and `total_height_` equals the top
border 4 plus `cover_height_`. -/
theorem claim_C9_large_layout_invariant :
    (∀ s, (UpdateHeight s).mode_ = Mode.LargeSongDetails →
      (UpdateHeight s).cover_height_ = min 260 (UpdateHeight s).widgetWidth ∧
      (UpdateHeight s).cover_height_ ≤ 260 ∧
      (UpdateHeight s).total_height_ = 4 + (UpdateHeight s).cover_height_)
    ∧ (∀ m s, (NowPlaying m s).mode_ = Mode.LargeSongDetails →
      (NowPlaying m s).cover_height_ = min 260 (NowPlaying m s).widgetWidth ∧
      (NowPlaying m s).cover_height_ ≤ 260 ∧
      (NowPlaying m s).total_height_ = 4 + (NowPlaying m s).cover_height_)
    ∧ (∀ mode s, (SetMode mode s).mode_ = Mode.LargeSongDetails →
      (SetMode mode s).cover_height_ = min 260 (SetMode mode s).widgetWidth ∧
      (SetMode mode s).cover_height_ ≤ 260 ∧
      (SetMode mode s).total_height_ = 4 + (SetMode mode s).cover_height_)
    ∧ (∀ hgt s, (set_ideal_height hgt s).mode_ = Mode.LargeSongDetails →
      (set_ideal_height hgt s).cover_height_ =
        min 260 (set_ideal_height hgt s).widgetWidth ∧
      (set_ideal_height hgt s).cover_height_ ≤ 260 ∧
      (set_ideal_height hgt s).total_height_ =
        4 + (set_ideal_height hgt s).cover_height_)
    ∧ (∀ ow nw oh nh s, s.visible_ = true → s.mode_ = Mode.LargeSongDetails →
      ow ≠ nw →
      (resizeEvent ow nw oh nh s).cover_height_ =
        min 260 (resizeEvent ow nw oh nh s).widgetWidth ∧
      (resizeEvent ow nw oh nh s).cover_height_ ≤ 260 ∧
      (resizeEvent ow nw oh nh s).total_height_ =
        4 + (resizeEvent ow nw oh nh s).cover_height_) := by
  refine ⟨?_, ?_, ?_, ?_, ?_⟩
  · intro s hm
    rw [UpdateHeight_mode] at hm
    refine ⟨?_, ?_, ?_⟩ <;>
      simp [UpdateHeight_coverHeight_large s hm, UpdateHeight_totalHeight_large s hm,
        UpdateHeight_widgetWidth, kMaxCoverSize, kTopBorder, kBottomOffset, min_le_left]
  · intro m s hm
    rw [NowPlaying_mode] at hm
    refine ⟨?_, ?_, ?_⟩ <;>
      simp [NowPlaying_coverHeight, NowPlaying_totalHeight, NowPlaying_widgetWidth, hm,
        kMaxCoverSize, kTopBorder, kBottomOffset, min_le_left]
  · intro mode s hm
    rw [SetMode_mode] at hm
    subst hm
    refine ⟨?_, ?_, ?_⟩ <;>
      simp [SetMode_coverHeight, SetMode_totalHeight, SetMode_widgetWidth,
        kMaxCoverSize, kTopBorder, kBottomOffset, min_le_left]
  · intro hgt s hm
    have hm' : ({ s with small_ideal_height_ := hgt } : WidgetState).mode_ =
        Mode.LargeSongDetails := hm
    unfold set_ideal_height
    refine ⟨?_, ?_, ?_⟩ <;>
      simp [UpdateHeight_coverHeight_large _ hm', UpdateHeight_totalHeight_large _ hm',
        UpdateHeight_widgetWidth, kMaxCoverSize, kTopBorder, kBottomOffset, min_le_left]
  · intro ow nw oh nh s hv hm hw
    have hm' : ({ s with widgetWidth := nw, widgetHeight := nh } : WidgetState).mode_ =
        Mode.LargeSongDetails := hm
    unfold resizeEvent
    dsimp only
    split
    · refine ⟨?_, ?_, ?_⟩ <;>
        simp [UpdateDetailsText_coverHeight, UpdateDetailsText_totalHeight,
          UpdateDetailsText_widgetWidth, UpdateHeight_coverHeight_large _ hm',
          UpdateHeight_totalHeight_large _ hm', UpdateHeight_widgetWidth,
          kMaxCoverSize, kTopBorder, kBottomOffset, min_le_left]
    · next hcond => exact absurd ⟨hv, hm, hw⟩ hcond

theorem claim_C9_large_layout_invariant_witness :
    (SetMode Mode.LargeSongDetails visState).cover_height_ =
        min 260 (SetMode Mode.LargeSongDetails visState).widgetWidth ∧
    (SetMode Mode.LargeSongDetails visState).cover_height_ ≤ 260 ∧
    (SetMode Mode.LargeSongDetails visState).total_height_ =
        4 + (SetMode Mode.LargeSongDetails visState).cover_height_ :=
  claim_C9_large_layout_invariant.2.2.1 Mode.LargeSongDetails visState rfl
